import Mathlib

/-
Verification of the column-classification and selection-validation logic of
the scatter-plot application (src/app.py), as a shallow embedding in Lean 4.

The pandas DataFrame is modelled as an ordered list of named, typed columns.
The streamlit widgets that merely collect user input are modelled by an
explicit Selections record; the widget st.number_input with min_value and
max_value keeps its value inside the given interval, which we model by
clamping.  st.stop after st.warning halts the current render cycle without
ending the session, which we model by an Except error value.
-/

namespace ScatterApp

/-- The pandas dtypes that appear in the classification logic of app.py
(lines 34 and 40): the four numeric dtypes, the object dtype used for
text, and the boolean dtype. -/
inductive DType where
  | int64
  | float64
  | int32
  | float32
  | object
  | boolean
deriving DecidableEq, Repr

/-- A scalar cell value of a column: a number, a text, or a boolean. -/
inductive Value where
  | vInt (i : Int)
  | vStr (s : String)
  | vBool (b : Bool)
deriving DecidableEq, Repr

/-- One named column of a DataFrame: its name, its declared dtype and its
ordered list of cell values. -/
structure Column where
  name : String
  dtype : DType
  values : List Value
deriving DecidableEq, Repr

/-- A pandas DataFrame: an ordered list of columns.  The first column is the
identifier column that app.py line 25 strips off. -/
structure DataFrame where
  cols : List Column
deriving DecidableEq, Repr

/-- app.py line 25: columns = list(df.columns[1:]) - the usable column
names, with the first (identifier) column dropped. -/
def DataFrame.columns (df : DataFrame) : List String :=
  (df.cols.map Column.name).drop 1

/-- Look up the declared dtype of a column by name, df[c].dtype.
Lookup by name may fail, hence the Option. -/
def DataFrame.dtypeOf (df : DataFrame) (c : String) : Option DType :=
  (df.cols.find? (fun col => col.name == c)).map Column.dtype

/-- Look up the cell values of a column by name, df[c]; a missing column
yields the empty list. -/
def DataFrame.valuesOf (df : DataFrame) (c : String) : List Value :=
  ((df.cols.find? (fun col => col.name == c)).map Column.values).getD []

/-- df[c].nunique(): the exact number of distinct values of the column. -/
def DataFrame.nunique (df : DataFrame) (c : String) : Nat :=
  (df.valuesOf c).dedup.length

/-- The row count of the DataFrame: the length of its first column.  All
columns of a well-formed DataFrame share this length. -/
def DataFrame.nrows (df : DataFrame) : Nat :=
  ((df.cols.head?).map (fun col => col.values.length)).getD 0

/-- Smallest value of a numeric column, df[c].min(), with cells read as
integers (numeric columns hold vInt cells). -/
def Value.toInt : Value → Int
  | .vInt i => i
  | .vStr _ => 0
  | .vBool b => if b then 1 else 0

/-- df[c].min() over the integer readings of the cells; 0 on an empty
column (the app never asks for the min of an empty axis column). -/
def DataFrame.colMin (df : DataFrame) (c : String) : Int :=
  match (df.valuesOf c).map Value.toInt with
  | [] => 0
  | v :: vs => vs.foldl min v

/-- df[c].max() over the integer readings of the cells; 0 on an empty
column. -/
def DataFrame.colMax (df : DataFrame) (c : String) : Int :=
  match (df.valuesOf c).map Value.toInt with
  | [] => 0
  | v :: vs => vs.foldl max v

/-- Pandas column assignment df[name] = ...: if a column of that name
exists it is overwritten in place, otherwise the new column is appended
at the end. -/
def DataFrame.setCol (df : DataFrame) (c : Column) : DataFrame :=
  if df.cols.any (fun col => col.name == c.name) then
    ⟨df.cols.map (fun col => if col.name == c.name then c else col)⟩
  else
    ⟨df.cols ++ [c]⟩

/-- app.py line 10. -/
def MAX_DISCRETE_ELEMENTS : Nat := 10

/-- app.py line 11. -/
def FACET_LIMIT : Nat := 3

/-- app.py line 34: the usable columns whose dtype is object or bool. -/
def discrete_columns (df : DataFrame) : List String :=
  df.columns.filter (fun c =>
    df.dtypeOf c == some DType.object || df.dtypeOf c == some DType.boolean)

/-- app.py line 35, with the threshold MAX_DISCRETE_ELEMENTS as the
parameter m: discrete columns with at most m distinct values. -/
def valid_discrete_columns (df : DataFrame) (m : Nat) : List String :=
  (discrete_columns df).filter (fun c => df.nunique c ≤ m)

/-- app.py line 36, with the thresholds as parameters m and f: selectable
discrete columns with at most f distinct values. -/
def valid_facet_columns (df : DataFrame) (m f : Nat) : List String :=
  (valid_discrete_columns df m).filter (fun c => df.nunique c ≤ f)

/-- app.py line 40: the usable columns whose dtype is one of the four
numeric dtypes. -/
def continuous_columns (df : DataFrame) : List String :=
  df.columns.filter (fun c =>
    df.dtypeOf c == some DType.int64 || df.dtypeOf c == some DType.float64 ||
    df.dtypeOf c == some DType.int32 || df.dtypeOf c == some DType.float32)

/-- Model of the streamlit widget st.number_input with bounds: the widget
keeps the committed value inside the interval from min_value to max_value,
clamping a request that lies outside it. -/
def number_input (value min_value max_value : Int) : Int :=
  max min_value (min max_value value)

/-- app.py lines 63 to 65: when no size-axis is chosen, the constant
pseudo-column dummy_size_axis valued at max_size is written into the
DataFrame and becomes the size axis; otherwise the chosen column stands.
Returns the (possibly updated) DataFrame and the effective size axis. -/
def applySize (df : DataFrame) (size_axis : Option String) (max_size : Int) :
    DataFrame × String :=
  match size_axis with
  | none =>
      (df.setCol ⟨"dummy_size_axis", DType.int64,
        List.replicate df.nrows (Value.vInt max_size)⟩, "dummy_size_axis")
  | some s => (df, s)

/-- The singleton or empty list contributed to the hover defaults by one
optional selection (app.py lines 108 to 123). -/
def optCol (o : Option String) : List String :=
  match o with
  | some s => [s]
  | none => []

/-- The contribution of the size axis to the hover defaults: included only
when present and different from the synthetic dummy_size_axis column
(app.py lines 110 and 111). -/
def sizeCol (o : Option String) : List String :=
  match o with
  | some s => if s == "dummy_size_axis" then [] else [s]
  | none => []

/-- app.py lines 107 to 123: the default hover-data columns, appended in
source order: color, size (if not synthetic), x, y, z, symbol, facet
column, facet row. -/
def default_columns (color size x y z symbol facet_col facet_row : Option String) :
    List String :=
  optCol color ++ sizeCol size ++ optCol x ++ optCol y ++ optCol z ++
    optCol symbol ++ optCol facet_col ++ optCol facet_row

/-- The user selections gathered by the sidebar widgets in one render
cycle.  The range request fields hold what the user typed into the range
number inputs (by default the observed column minimum and maximum). -/
structure Selections where
  dimensions : Nat
  x_axis : Option String
  y_axis : Option String
  z_axis : Option String
  color_axis : Option String
  size_axis : Option String
  max_size : Int
  symbol_axis : Option String
  facet_col_axis : Option String
  facet_row_axis : Option String
  x_range_min_req : Int
  x_range_max_req : Int
  y_range_min_req : Int
  y_range_max_req : Int
  z_range_min_req : Int
  z_range_max_req : Int
deriving DecidableEq, Repr

/-- The validated argument set handed to the plot renderer. -/
structure PlotRequest where
  dims : Nat
  x : String
  y : String
  z : Option String
  range_x : Int × Int
  range_y : Int × Int
  range_z : Option (Int × Int)
  color : Option String
  size : String
  size_max : Int
  symbol : Option String
  facet_col : Option String
  facet_row : Option String
  hover_defaults : List String
deriving DecidableEq, Repr

/-- The two recoverable stops of the sidebar path: st.warning followed by
st.stop, which ends the current render cycle but not the session. -/
inductive AppStop where
  | NoColumns
  | MissingAxes
deriving DecidableEq, Repr

/-- app.py lines 55 to 124 after the axis guard has passed: size
substitution, facet selection (2D only), per-axis range clamping on the
observed column minimum and maximum, and the hover defaults.  Always
succeeds. -/
def buildRequest (df0 : DataFrame) (sel : Selections) (x y : String)
    (z : Option String) : Except AppStop (DataFrame × PlotRequest) :=
  let sized := applySize df0 sel.size_axis sel.max_size
  let df := sized.1
  let size_axis := sized.2
  let facet_col := if sel.dimensions = 2 then sel.facet_col_axis else none
  let facet_row := if sel.dimensions = 2 then sel.facet_row_axis else none
  let min_x := df.colMin x
  let max_x := df.colMax x
  let x_range_min := number_input sel.x_range_min_req min_x max_x
  let x_range_max := number_input sel.x_range_max_req min_x max_x
  let min_y := df.colMin y
  let max_y := df.colMax y
  let y_range_min := number_input sel.y_range_min_req min_y max_y
  let y_range_max := number_input sel.y_range_max_req min_y max_y
  let range_z :=
    match z with
    | some zc =>
        some (number_input sel.z_range_min_req (df.colMin zc) (df.colMax zc),
              number_input sel.z_range_max_req (df.colMin zc) (df.colMax zc))
    | none => none
  let hover := default_columns sel.color_axis (some size_axis) (some x) (some y)
    z sel.symbol_axis facet_col facet_row
  .ok (df,
    { dims := sel.dimensions
      x := x
      y := y
      z := z
      range_x := (x_range_min, x_range_max)
      range_y := (y_range_min, y_range_max)
      range_z := range_z
      color := sel.color_axis
      size := size_axis
      size_max := sel.max_size
      symbol := sel.symbol_axis
      facet_col := facet_col
      facet_row := facet_row
      hover_defaults := hover })

/-- The sidebar path of app.py for one render cycle, from the parsed
DataFrame and the user selections to either a recoverable stop or the
renderer arguments: the no-columns guard (lines 27 to 30), the z-axis
selection shown only in 3D (lines 47 to 49), the required-axis guard
(lines 51 to 53), then the request construction. -/
def runSidebar (df0 : DataFrame) (sel : Selections) :
    Except AppStop (DataFrame × PlotRequest) :=
  if df0.columns.length = 0 then .error .NoColumns
  else
    let z_axis := if sel.dimensions = 3 then sel.z_axis else none
    match sel.x_axis, sel.y_axis with
    | some x, some y =>
        if sel.dimensions = 3 ∧ z_axis = none then .error .MissingAxes
        else buildRequest df0 sel x y z_axis
    | _, _ => .error .MissingAxes

/-- A table with an identifier column and one numeric (int64) column v
holding exactly MAX_DISCRETE_ELEMENTS = 10 distinct values. -/
def dfNum : DataFrame :=
  ⟨[⟨"id", DType.int64, (List.range 10).map (fun i => Value.vInt i)⟩,
    ⟨"v", DType.int64, (List.range 10).map (fun i => Value.vInt i)⟩]⟩

/-- A table with an identifier column, a text column cat with three
distinct values, and two numeric columns. -/
def dfCat : DataFrame :=
  ⟨[⟨"id", DType.int64, [Value.vInt 0, Value.vInt 1, Value.vInt 2]⟩,
    ⟨"cat", DType.object, [Value.vStr "a", Value.vStr "b", Value.vStr "c"]⟩,
    ⟨"x", DType.int64, [Value.vInt 1, Value.vInt 2, Value.vInt 3]⟩,
    ⟨"y", DType.float64, [Value.vInt 4, Value.vInt 5, Value.vInt 6]⟩]⟩

/-- A table with an identifier column and a boolean column flag. -/
def dfBool : DataFrame :=
  ⟨[⟨"id", DType.int64, [Value.vInt 0, Value.vInt 1]⟩,
    ⟨"flag", DType.boolean, [Value.vBool true, Value.vBool false]⟩]⟩

/-- A table holding only the identifier column: parsing it leaves zero
usable columns. -/
def dfOnlyId : DataFrame :=
  ⟨[⟨"id", DType.int64, [Value.vInt 0, Value.vInt 1]⟩]⟩

/-- A table whose input file already contains a column named
dummy_size_axis, alongside two numeric axis columns. -/
def dfDummy : DataFrame :=
  ⟨[⟨"id", DType.int64, [Value.vInt 0, Value.vInt 1]⟩,
    ⟨"x", DType.int64, [Value.vInt 1, Value.vInt 2]⟩,
    ⟨"y", DType.int64, [Value.vInt 3, Value.vInt 4]⟩,
    ⟨"dummy_size_axis", DType.int64, [Value.vInt 7, Value.vInt 9]⟩]⟩

/-- A table whose column x has observed range 10 to 1000. -/
def dfRange : DataFrame :=
  ⟨[⟨"id", DType.int64, [Value.vInt 0, Value.vInt 1]⟩,
    ⟨"x", DType.int64, [Value.vInt 10, Value.vInt 1000]⟩,
    ⟨"y", DType.int64, [Value.vInt 10, Value.vInt 1000]⟩]⟩

/-- A baseline selection: 2D, axes x and y, a real size axis, range
requests at the observed bounds of dfRange. -/
def selBase : Selections :=
  { dimensions := 2
    x_axis := some "x"
    y_axis := some "y"
    z_axis := none
    color_axis := none
    size_axis := some "x"
    max_size := 5
    symbol_axis := none
    facet_col_axis := none
    facet_row_axis := none
    x_range_min_req := 10
    x_range_max_req := 1000
    y_range_min_req := 10
    y_range_max_req := 1000
    z_range_min_req := 0
    z_range_max_req := 0 }

/-- The selection of the inverted-range scenario: both range requests for
the x axis are inside the observed interval 10 to 1000, but the requested
minimum 900 exceeds the requested maximum 20. -/
def selInverted : Selections :=
  { selBase with x_range_min_req := 900, x_range_max_req := 20 }

/-- A 3D selection with no z axis chosen. -/
def selNoZ : Selections :=
  { selBase with dimensions := 3, z_axis := none }

/-- A selection with no size axis chosen and max_size = 8. -/
def selNoSize : Selections :=
  { selBase with size_axis := none, max_size := 8 }

/-! Helper lemmas about the classification filters. -/

lemma mem_discrete_iff (df : DataFrame) (c : String) :
    c ∈ discrete_columns df ↔
      c ∈ df.columns ∧
        (df.dtypeOf c = some DType.object ∨ df.dtypeOf c = some DType.boolean) := by
  simp [discrete_columns, List.mem_filter]

lemma mem_continuous_iff (df : DataFrame) (c : String) :
    c ∈ continuous_columns df ↔
      c ∈ df.columns ∧
        (df.dtypeOf c = some DType.int64 ∨ df.dtypeOf c = some DType.float64 ∨
         df.dtypeOf c = some DType.int32 ∨ df.dtypeOf c = some DType.float32) := by
  simp [continuous_columns, List.mem_filter, or_assoc]

lemma mem_valid_discrete_iff (df : DataFrame) (m : Nat) (c : String) :
    c ∈ valid_discrete_columns df m ↔
      c ∈ discrete_columns df ∧ df.nunique c ≤ m := by
  simp [valid_discrete_columns, List.mem_filter]

lemma mem_valid_facet_iff (df : DataFrame) (m f : Nat) (c : String) :
    c ∈ valid_facet_columns df m f ↔
      c ∈ valid_discrete_columns df m ∧ df.nunique c ≤ f := by
  simp [valid_facet_columns, List.mem_filter]

lemma continuous_not_discrete (df : DataFrame) (c : String)
    (h : c ∈ continuous_columns df) : c ∉ discrete_columns df := by
  rcases (mem_continuous_iff df c).1 h with ⟨-, hnum⟩
  intro hd
  rcases (mem_discrete_iff df c).1 hd with ⟨-, hcat⟩
  rcases hnum with h1 | h1 | h1 | h1 <;> rcases hcat with h2 | h2 <;>
    rw [h1] at h2 <;> exact absurd (Option.some.inj h2) (by intro hx; cases hx)

/-! Helper lemmas about column assignment (DataFrame.setCol). -/

lemma find?_map_replace_self (l : List Column) (c : Column)
    (h : l.any (fun col => col.name == c.name) = true) :
    (l.map (fun col => if col.name == c.name then c else col)).find?
      (fun col => col.name == c.name) = some c := by
  induction l with
  | nil => simp at h
  | cons hd tl ih =>
      rw [List.map_cons]
      by_cases hh : hd.name = c.name
      · rw [if_pos (by simpa using hh)]
        exact List.find?_cons_of_pos _ (by simp)
      · rw [if_neg (by simpa using hh)]
        rw [List.find?_cons_of_neg _ (by simpa using hh)]
        have h' : tl.any (fun col => col.name == c.name) = true := by
          simpa [List.any_cons, hh] using h
        exact ih h'

lemma find?_map_replace_other (l : List Column) (c : Column) (d : String)
    (hd : c.name ≠ d) :
    (l.map (fun col => if col.name == c.name then c else col)).find?
      (fun col => col.name == d) = l.find? (fun col => col.name == d) := by
  induction l with
  | nil => simp
  | cons hd' tl ih =>
      rw [List.map_cons]
      by_cases hh : hd'.name = c.name
      · rw [if_pos (by simpa using hh)]
        have h1 : ¬ hd'.name = d := by rw [hh]; exact hd
        rw [List.find?_cons_of_neg _ (by simpa using hd),
            List.find?_cons_of_neg _ (by simpa using h1)]
        exact ih
      · rw [if_neg (by simpa using hh)]
        by_cases hh2 : hd'.name = d
        · rw [List.find?_cons_of_pos _ (by simpa using hh2),
              List.find?_cons_of_pos _ (by simpa using hh2)]
        · rw [List.find?_cons_of_neg _ (by simpa using hh2),
              List.find?_cons_of_neg _ (by simpa using hh2)]
          exact ih

lemma find?_append_last (l : List Column) (c : Column)
    (h : l.any (fun col => col.name == c.name) = false) :
    (l ++ [c]).find? (fun col => col.name == c.name) = some c := by
  induction l with
  | nil => exact List.find?_cons_of_pos _ (by simp)
  | cons hd tl ih =>
      have h1 : ¬ hd.name = c.name := by
        intro hx
        simp [List.any_cons, hx] at h
      have h2 : tl.any (fun col => col.name == c.name) = false := by
        simpa [List.any_cons, h1] using h
      rw [List.cons_append, List.find?_cons_of_neg _ (by simpa using h1)]
      exact ih h2

lemma find?_append_other (l : List Column) (c : Column) (d : String)
    (hd : c.name ≠ d) :
    (l ++ [c]).find? (fun col => col.name == d) =
      l.find? (fun col => col.name == d) := by
  induction l with
  | nil =>
      rw [List.nil_append]
      exact List.find?_cons_of_neg _ (by simpa using hd)
  | cons hd' tl ih =>
      rw [List.cons_append]
      by_cases hh : hd'.name = d
      · rw [List.find?_cons_of_pos _ (by simpa using hh),
            List.find?_cons_of_pos _ (by simpa using hh)]
      · rw [List.find?_cons_of_neg _ (by simpa using hh),
            List.find?_cons_of_neg _ (by simpa using hh)]
        exact ih

lemma valuesOf_setCol_self (df : DataFrame) (c : Column) :
    (df.setCol c).valuesOf c.name = c.values := by
  unfold DataFrame.setCol DataFrame.valuesOf
  by_cases h : df.cols.any (fun col => col.name == c.name)
  · simp only [h, if_true]
    rw [find?_map_replace_self df.cols c h]
    rfl
  · simp only [h, if_false, Bool.false_eq_true]
    rw [find?_append_last df.cols c (by simpa using h)]
    rfl

lemma valuesOf_setCol_other (df : DataFrame) (c : Column) (d : String)
    (hd : c.name ≠ d) :
    (df.setCol c).valuesOf d = df.valuesOf d := by
  unfold DataFrame.setCol DataFrame.valuesOf
  by_cases h : df.cols.any (fun col => col.name == c.name)
  · simp only [h, if_true]
    rw [find?_map_replace_other df.cols c d hd]
  · simp only [h, if_false, Bool.false_eq_true]
    rw [find?_append_other df.cols c d hd]

/-! Helper lemmas for observed column bounds. -/

lemma foldl_min_le (v : Int) (vs : List Int) : vs.foldl min v ≤ v := by
  induction vs generalizing v with
  | nil => exact le_refl v
  | cons a t ih => exact le_trans (ih (min v a)) (min_le_left v a)

lemma le_foldl_max (v : Int) (vs : List Int) : v ≤ vs.foldl max v := by
  induction vs generalizing v with
  | nil => exact le_refl v
  | cons a t ih => exact le_trans (le_max_left v a) (ih (max v a))

lemma colMin_le_colMax (df : DataFrame) (c : String) :
    df.colMin c ≤ df.colMax c := by
  unfold DataFrame.colMin DataFrame.colMax
  rcases hl : (df.valuesOf c).map Value.toInt with - | ⟨v, vs⟩
  · exact le_refl 0
  · exact le_trans (foldl_min_le v vs) (le_foldl_max v vs)

/-! Helper lemmas for the hover defaults. -/

lemma mem_optCol (o : Option String) (c : String) :
    c ∈ optCol o ↔ o = some c := by
  cases o <;> simp [optCol, eq_comm]

lemma mem_sizeCol (o : Option String) (c : String) :
    c ∈ sizeCol o ↔ o = some c ∧ c ≠ "dummy_size_axis" := by
  cases o with
  | none => simp [sizeCol]
  | some s =>
      by_cases hs : s = "dummy_size_axis"
      · subst hs
        simp only [sizeCol, beq_self_eq_true, if_true]
        simp only [List.not_mem_nil, false_iff]
        rintro ⟨hc, hne⟩
        exact hne (Option.some.inj hc).symm
      · simp only [sizeCol, beq_eq_false_iff_ne, ne_eq]
        rw [if_neg (by simpa using hs)]
        constructor
        · intro hm
          rcases List.mem_singleton.1 hm with rfl
          exact ⟨rfl, hs⟩
        · rintro ⟨hc, -⟩
          rcases Option.some.inj hc with rfl
          exact List.mem_singleton.2 rfl

lemma buildRequest_isOk (df : DataFrame) (sel : Selections) (x y : String)
    (z : Option String) : (buildRequest df sel x y z).isOk = true := rfl

lemma columns_length_ne_zero (df : DataFrame) (x : String)
    (hx : x ∈ df.columns) : ¬ df.columns.length = 0 := by
  intro h0
  rw [List.length_eq_zero] at h0
  rw [h0] at hx
  exact (List.not_mem_nil x) hx

/-- Claim C1, counterexample: the claim says a numeric-typed column with
exactly m distinct values (m the default selectable-discrete threshold, 10)
is classified selectable-discrete.  In the code, valid_discrete_columns
filters discrete_columns, which admits only object- and boolean-typed
columns, so the int64 column v of dfNum with exactly 10 distinct values is
not selectable-discrete. -/
theorem claim1_counterexample :
    dfNum.dtypeOf "v" = some DType.int64 ∧
      dfNum.nunique "v" = MAX_DISCRETE_ELEMENTS ∧
      "v" ∉ valid_discrete_columns dfNum MAX_DISCRETE_ELEMENTS := by
  decide

/-- Claim C1, amended: a textual- or boolean-typed column with exactly m
distinct values is selectable-discrete, with m + 1 distinct values it is
not, and a numeric-typed (continuous) column is never selectable-discrete
whatever its distinct-value count. -/
theorem claim1_amended (df : DataFrame) (c : String) (m : Nat)
    (hmem : c ∈ df.columns)
    (hd : df.dtypeOf c = some DType.object ∨ df.dtypeOf c = some DType.boolean) :
    (df.nunique c = m → c ∈ valid_discrete_columns df m) ∧
      (df.nunique c = m + 1 → c ∉ valid_discrete_columns df m) ∧
      (∀ d, d ∈ continuous_columns df → d ∉ valid_discrete_columns df m) := by
  refine ⟨?_, ?_, ?_⟩
  · intro hcnt
    exact (mem_valid_discrete_iff df m c).2
      ⟨(mem_discrete_iff df c).2 ⟨hmem, hd⟩, le_of_eq hcnt⟩
  · intro hcnt hin
    have := ((mem_valid_discrete_iff df m c).1 hin).2
    omega
  · intro d hcont hin
    exact continuous_not_discrete df d hcont
      ((mem_valid_discrete_iff df m d).1 hin).1

/-- Claim C1, witness for the amended claim: in dfCat the text column cat
has exactly 3 distinct values, so with threshold m = 3 it is
selectable-discrete, and the numeric column x is not. -/
theorem claim1_amended_witness :
    "cat" ∈ valid_discrete_columns dfCat 3 ∧
      "x" ∉ valid_discrete_columns dfCat 3 :=
  ⟨(claim1_amended dfCat "cat" 3 (by decide) (Or.inl (by decide))).1 (by decide),
   (claim1_amended dfCat "cat" 3 (by decide) (Or.inl (by decide))).2.2 "x"
     (by decide)⟩

/-- Claim C2: for every table and thresholds (m, f) with f ≤ m, the
continuous and discrete column sets are disjoint, every facet-eligible
column is selectable-discrete, and every selectable-discrete column is
discrete. -/
theorem claim2_invariants (df : DataFrame) (m f : Nat) (_hmf : f ≤ m) :
    (∀ c, c ∈ continuous_columns df → c ∉ discrete_columns df) ∧
      (∀ c, c ∈ valid_facet_columns df m f → c ∈ valid_discrete_columns df m) ∧
      (∀ c, c ∈ valid_discrete_columns df m → c ∈ discrete_columns df) := by
  refine ⟨?_, ?_, ?_⟩
  · intro c hc
    exact continuous_not_discrete df c hc
  · intro c hc
    exact ((mem_valid_facet_iff df m f c).1 hc).1
  · intro c hc
    exact ((mem_valid_discrete_iff df m c).1 hc).1

/-- Claim C2, witness at dfCat with the default thresholds 10 and 3. -/
theorem claim2_invariants_witness :
    "x" ∉ discrete_columns dfCat ∧
      "cat" ∈ valid_discrete_columns dfCat 10 ∧
      "cat" ∈ discrete_columns dfCat :=
  ⟨(claim2_invariants dfCat 10 3 (by decide)).1 "x" (by decide),
   (claim2_invariants dfCat 10 3 (by decide)).2.1 "cat" (by decide),
   (claim2_invariants dfCat 10 3 (by decide)).2.2 "cat" (by decide)⟩

/-- Claim C8: a column of boolean dtype among the usable columns is
classified discrete and never continuous. -/
theorem claim8_boolean_discrete (df : DataFrame) (c : String)
    (hmem : c ∈ df.columns) (hb : df.dtypeOf c = some DType.boolean) :
    c ∈ discrete_columns df ∧ c ∉ continuous_columns df := by
  constructor
  · exact (mem_discrete_iff df c).2 ⟨hmem, Or.inr hb⟩
  · intro hc
    rcases (mem_continuous_iff df c).1 hc with ⟨-, hnum⟩
    rcases hnum with h1 | h1 | h1 | h1 <;> rw [hb] at h1 <;>
      exact absurd (Option.some.inj h1) (by intro hx; cases hx)

/-- Claim C8, witness: the boolean column flag of dfBool. -/
theorem claim8_boolean_discrete_witness :
    "flag" ∈ discrete_columns dfBool ∧ "flag" ∉ continuous_columns dfBool :=
  claim8_boolean_discrete dfBool "flag" (by decide) (by decide)

/-- Claim C5: when no size-axis is chosen, the synthetic column
dummy_size_axis becomes the size axis and every row of it holds the
user-configured maximum size. -/
theorem claim5_dummy_size (df : DataFrame) (sel : Selections)
    (h : sel.size_axis = none) :
    (applySize df sel.size_axis sel.max_size).2 = "dummy_size_axis" ∧
      (applySize df sel.size_axis sel.max_size).1.valuesOf "dummy_size_axis" =
        List.replicate df.nrows (Value.vInt sel.max_size) := by
  rw [h]
  constructor
  · rfl
  · exact valuesOf_setCol_self df
      ⟨"dummy_size_axis", DType.int64,
        List.replicate df.nrows (Value.vInt sel.max_size)⟩

/-- Claim C5, witness: dfRange with no size axis chosen and max_size 8. -/
theorem claim5_dummy_size_witness :
    (applySize dfRange selNoSize.size_axis selNoSize.max_size).1.valuesOf
        "dummy_size_axis" =
      List.replicate dfRange.nrows (Value.vInt selNoSize.max_size) :=
  (claim5_dummy_size dfRange selNoSize rfl).2

/-- Claim C9: the synthetic size substitution writes the column
dummy_size_axis into the table itself; every other column keeps its
values, and a pre-existing column of that name is overwritten with the
constant max-size value. -/
theorem claim9_frame_effect (df : DataFrame) (max_size : Int) (c : String)
    (hc : c ≠ "dummy_size_axis") :
    (applySize df none max_size).1.valuesOf c = df.valuesOf c ∧
      (applySize df none max_size).1.valuesOf "dummy_size_axis" =
        List.replicate df.nrows (Value.vInt max_size) := by
  constructor
  · exact valuesOf_setCol_other df
      ⟨"dummy_size_axis", DType.int64,
        List.replicate df.nrows (Value.vInt max_size)⟩ c
      (fun hne => hc hne.symm)
  · exact valuesOf_setCol_self df
      ⟨"dummy_size_axis", DType.int64,
        List.replicate df.nrows (Value.vInt max_size)⟩

/-- Claim C9, witness: dfDummy already carries a column named
dummy_size_axis with values 7 and 9; after the substitution the column x
is untouched and dummy_size_axis holds the constant 8. -/
theorem claim9_frame_effect_witness :
    (applySize dfDummy none 8).1.valuesOf "x" = dfDummy.valuesOf "x" ∧
      (applySize dfDummy none 8).1.valuesOf "dummy_size_axis" =
        List.replicate dfDummy.nrows (Value.vInt 8) :=
  claim9_frame_effect dfDummy 8 "x" (by decide)

/-- Claim C6: each axis range input is clamped to the observed column
minimum and maximum: the committed value always lies in that interval, a
request at or below the observed minimum yields the observed minimum, and
the defaults (the observed bounds themselves) are kept unchanged. -/
theorem claim6_range_clamped (df : DataFrame) (c : String) (v : Int) :
    df.colMin c ≤ number_input v (df.colMin c) (df.colMax c) ∧
      number_input v (df.colMin c) (df.colMax c) ≤ df.colMax c ∧
      (v ≤ df.colMin c →
        number_input v (df.colMin c) (df.colMax c) = df.colMin c) ∧
      number_input (df.colMin c) (df.colMin c) (df.colMax c) = df.colMin c ∧
      number_input (df.colMax c) (df.colMin c) (df.colMax c) = df.colMax c := by
  have hlh := colMin_le_colMax df c
  unfold number_input
  refine ⟨le_max_left _ _, max_le hlh (min_le_left _ _), ?_, ?_, ?_⟩
  · intro hv
    rw [min_eq_right (le_trans hv hlh), max_eq_left hv]
  · rw [min_eq_right hlh, max_self]
  · rw [min_self, max_eq_right hlh]

/-- Claim C6, witness: the revenue-style scenario, observed range 10 to
1000 in column x of dfRange, requested range minimum 0, clamped to 10. -/
theorem claim6_range_clamped_witness :
    number_input 0 (dfRange.colMin "x") (dfRange.colMax "x") =
        dfRange.colMin "x" ∧
      dfRange.colMin "x" = 10 ∧ dfRange.colMax "x" = 1000 :=
  ⟨(claim6_range_clamped dfRange "x" 0).2.2.1 (by decide), by decide, by decide⟩

/-- Claim C7: a column is among the default hover-data columns exactly
when it is one of the selected optional encodings (color, a size axis
other than the synthetic one, symbol, facet column, facet row) or one of
the selected axis columns (x, y, and z when present). -/
theorem claim7_hover_defaults
    (color size x y z symbol facet_col facet_row : Option String) (c : String) :
    c ∈ default_columns color size x y z symbol facet_col facet_row ↔
      (color = some c ∨ (size = some c ∧ c ≠ "dummy_size_axis") ∨
        x = some c ∨ y = some c ∨ z = some c ∨ symbol = some c ∨
        facet_col = some c ∨ facet_row = some c) := by
  simp only [default_columns, List.mem_append, mem_optCol, mem_sizeCol]
  tauto

/-- Claim C3: with x and y selected from the continuous columns, the
render path stops with the recoverable MissingAxes warning when the
dimensionality is 3 and no z axis is chosen, and goes through to a
PlotRequest when the dimensionality is 2 (where z is absent).  The
Except value models the st.warning plus st.stop pair: the cycle halts,
the session survives. -/
theorem claim3_axis_validation (df : DataFrame) (sel : Selections)
    (x y : String) (hx : sel.x_axis = some x) (hy : sel.y_axis = some y)
    (hxc : x ∈ continuous_columns df) (_hyc : y ∈ continuous_columns df) :
    (sel.dimensions = 3 → sel.z_axis = none →
        runSidebar df sel = .error AppStop.MissingAxes) ∧
      (sel.dimensions = 2 → (runSidebar df sel).isOk = true) := by
  have hxcol : x ∈ df.columns := ((mem_continuous_iff df x).1 hxc).1
  have hne := columns_length_ne_zero df x hxcol
  constructor
  · intro h3 hz
    simp [runSidebar, hne, hx, hy, h3, hz]
  · intro h2
    simp [runSidebar, hne, hx, hy, h2, buildRequest_isOk]

/-- Claim C3, witness: on dfRange, the 3D selection with no z axis stops
with MissingAxes and the 2D selection builds a request. -/
theorem claim3_axis_validation_witness :
    runSidebar dfRange selNoZ = .error AppStop.MissingAxes ∧
      (runSidebar dfRange selBase).isOk = true :=
  ⟨(claim3_axis_validation dfRange selNoZ "x" "y" rfl rfl (by decide)
      (by decide)).1 rfl rfl,
   (claim3_axis_validation dfRange selBase "x" "y" rfl rfl (by decide)
      (by decide)).2 rfl⟩

/-- Claim C4: a parsed table holding only the identifier column makes the
loader stop with the recoverable NoColumns warning and no plot is
attempted, and every column of any classification list comes from the
column-name list with its first entry dropped. -/
theorem claim4_no_columns (df : DataFrame) (sel : Selections) :
    (∀ c0 : Column, df.cols = [c0] →
        runSidebar df sel = .error AppStop.NoColumns) ∧
      (∀ c m f, (c ∈ discrete_columns df ∨ c ∈ continuous_columns df ∨
          c ∈ valid_discrete_columns df m ∨ c ∈ valid_facet_columns df m f) →
          c ∈ (df.cols.map Column.name).drop 1) := by
  constructor
  · intro c0 h
    have hcols : df.columns = [] := by simp [DataFrame.columns, h]
    simp [runSidebar, hcols]
  · intro c m f h
    show c ∈ df.columns
    rcases h with h | h | h | h
    · exact ((mem_discrete_iff df c).1 h).1
    · exact ((mem_continuous_iff df c).1 h).1
    · exact ((mem_discrete_iff df c).1
        ((mem_valid_discrete_iff df m c).1 h).1).1
    · exact ((mem_discrete_iff df c).1
        ((mem_valid_discrete_iff df m c).1
          ((mem_valid_facet_iff df m f c).1 h).1).1).1

/-- Claim C4, witness: dfOnlyId holds only its identifier column and
stops with NoColumns; in dfCat the discrete column cat indeed sits past
the dropped first name. -/
theorem claim4_no_columns_witness :
    runSidebar dfOnlyId selBase = .error AppStop.NoColumns ∧
      "cat" ∈ (dfCat.cols.map Column.name).drop 1 :=
  ⟨(claim4_no_columns dfOnlyId selBase).1
      ⟨"id", DType.int64, [Value.vInt 0, Value.vInt 1]⟩ rfl,
   (claim4_no_columns dfCat selBase).2 "cat" 10 3 (Or.inl (by decide))⟩

/-- Claim C10: the range inputs are clamped per field only.  On dfRange,
whose column x has observed range 10 to 1000, the requests minimum 900
and maximum 20 are each inside the observed interval, so both are
accepted, and the inverted pair (900, 20) reaches the renderer
unchanged. -/
theorem claim10_inverted_range :
    (runSidebar dfRange selInverted).toOption.map (fun p => p.2.range_x) =
        some (900, 20) ∧
      dfRange.colMin "x" = 10 ∧ dfRange.colMax "x" = 1000 ∧
      (10 : Int) ≤ 20 ∧ (10 : Int) ≤ 900 ∧ (20 : Int) ≤ 1000 ∧
      (900 : Int) ≤ 1000 ∧ (20 : Int) < 900 := by
  decide

end ScatterApp
